import Mathlib

/-!
Shallow embedding of the lead-intake backend in `src/main.py`.

The data model is the single `Lead` entity; the operations are the public
submission endpoint `create_lead` and the authenticated admin endpoints
`get_leads`, `get_lead`, `download_resume`, `update_resume` and
`update_lead_state`.  Identity derivation (`create_uuid_from_string`)
hashes the UTF-8 bytes of the input with MD5 and formats the digest as a
canonical UUID string, exactly as `hashlib.md5` + `uuid.UUID(hex=...)` do.
Bytes are modelled as `Nat` values below 256, byte strings as `List Nat`,
and the SQLite table as a list of `Lead` records keyed by `id`.
-/

namespace CandidateProcess

/-! ### Python string primitives used by the endpoints -/

/-- `str.lower`: lowercase every character. -/
def pyLower (s : String) : String := String.mk (s.data.map Char.toLower)

/-- `str.endswith`: suffix test. -/
def pyEndswith (s suffix : String) : Bool := suffix.data.isSuffixOf s.data

/-- `str.strip` with no argument: remove leading and trailing whitespace. -/
def pyStrip (s : String) : String :=
  String.mk (((s.data.dropWhile Char.isWhitespace).reverse.dropWhile
    Char.isWhitespace).reverse)

/-! ### MD5 (as used by `hashlib.md5` in `create_uuid_from_string`) -/

/-- Per-round left-rotation amounts of MD5. -/
def md5_s : List Nat :=
  [7, 12, 17, 22, 7, 12, 17, 22, 7, 12, 17, 22, 7, 12, 17, 22,
   5, 9, 14, 20, 5, 9, 14, 20, 5, 9, 14, 20, 5, 9, 14, 20,
   4, 11, 16, 23, 4, 11, 16, 23, 4, 11, 16, 23, 4, 11, 16, 23,
   6, 10, 15, 21, 6, 10, 15, 21, 6, 10, 15, 21, 6, 10, 15, 21]

/-- Per-round additive constants of MD5 (binary integer parts of the sines
of successive integers). -/
def md5_K : List Nat :=
  [3614090360, 3905402710, 606105819, 3250441966,
   4118548399, 1200080426, 2821735955, 4249261313,
   1770035416, 2336552879, 4294925233, 2304563134,
   1804603682, 4254626195, 2792965006, 1236535329,
   4129170786, 3225465664, 643717713, 3921069994,
   3593408605, 38016083, 3634488961, 3889429448,
   568446438, 3275163606, 4107603335, 1163531501,
   2850285829, 4243563512, 1735328473, 2368359562,
   4294588738, 2272392833, 1839030562, 4259657740,
   2763975236, 1272893353, 4139469664, 3200236656,
   681279174, 3936430074, 3572445317, 76029189,
   3654602809, 3873151461, 530742520, 3299628645,
   4096336452, 1126891415, 2878612391, 4237533241,
   1700485571, 2399980690, 4293915773, 2240044497,
   1873313359, 4264355552, 2734768916, 1309151649,
   4149444226, 3174756917, 718787259, 3951481745]

/-- Truncation to a 32-bit word. -/
def w32 (n : Nat) : Nat := n % 4294967296

/-- 32-bit addition. -/
def wadd (a b : Nat) : Nat := (a + b) % 4294967296

/-- 32-bit bitwise complement. -/
def wnot (a : Nat) : Nat := Nat.xor a 4294967295

/-- 32-bit left rotation. -/
def rotl (x n : Nat) : Nat := Nat.lor (w32 (Nat.shiftLeft x n)) (Nat.shiftRight x (32 - n))

/-- Little-endian serialization of `n` into `k` bytes. -/
def toLEBytes : Nat → Nat → List Nat
  | 0, _ => []
  | k + 1, n => (n % 256) :: toLEBytes k (n / 256)

/-- MD5 padding: a `0x80` byte, zeros up to 56 mod 64, then the original
bit length as 8 little-endian bytes. -/
def md5_pad (msg : List Nat) : List Nat :=
  let len := msg.length
  msg ++ 128 :: List.replicate ((56 + 64 - (len + 1) % 64) % 64) 0 ++ toLEBytes 8 (len * 8)

/-- The `i`-th little-endian 32-bit word of a 64-byte chunk. -/
def md5_word (chunk : List Nat) (i : Nat) : Nat :=
  chunk.getD (4 * i) 0 + 256 * chunk.getD (4 * i + 1) 0 +
    65536 * chunk.getD (4 * i + 2) 0 + 16777216 * chunk.getD (4 * i + 3) 0

/-- One of the 64 MD5 rounds, acting on the `(A, B, C, D)` state. -/
def md5_round (chunk : List Nat) (st : Nat × Nat × Nat × Nat) (i : Nat) :
    Nat × Nat × Nat × Nat :=
  let (A, B, C, D) := st
  let f :=
    if i < 16 then Nat.lor (Nat.land B C) (Nat.land (wnot B) D)
    else if i < 32 then Nat.lor (Nat.land D B) (Nat.land (wnot D) C)
    else if i < 48 then Nat.xor (Nat.xor B C) D
    else Nat.xor C (Nat.lor B (wnot D))
  let g :=
    if i < 16 then i
    else if i < 32 then (5 * i + 1) % 16
    else if i < 48 then (3 * i + 5) % 16
    else (7 * i) % 16
  let tmp := w32 (f + A + md5_K.getD i 0 + md5_word chunk g)
  (D, wadd B (rotl tmp (md5_s.getD i 0)), B, C)

/-- Digest one 64-byte chunk into the running `(a, b, c, d)` state. -/
def md5_chunk (st : Nat × Nat × Nat × Nat) (chunk : List Nat) :
    Nat × Nat × Nat × Nat :=
  let (A, B, C, D) := (List.range 64).foldl (md5_round chunk) st
  let (a, b, c, d) := st
  (wadd a A, wadd b B, wadd c C, wadd d D)

/-- The MD5 digest of a byte string, as its 16 bytes: the padded message
is processed in successive 64-byte chunks and the final state is
serialized little-endian. -/
def md5 (msg : List Nat) : List Nat :=
  let padded := md5_pad msg
  let st :=
    (List.range (padded.length / 64)).foldl
      (fun st i => md5_chunk st ((padded.drop (64 * i)).take 64))
      (1732584193, 4023233417, 2562383102, 271733878)
  toLEBytes 4 st.1 ++ toLEBytes 4 st.2.1 ++ toLEBytes 4 st.2.2.1 ++ toLEBytes 4 st.2.2.2

/-- Lowercase hexadecimal digit for a value below 16. -/
def hexDigit (n : Nat) : Char := if n < 10 then Char.ofNat (48 + n) else Char.ofNat (87 + n)

/-- Lowercase hexadecimal rendering of a byte string, two digits per byte
(the `hexdigest` of the hash object). -/
def bytesToHex (l : List Nat) : List Char :=
  (l.map (fun b => [hexDigit (b / 16 % 16), hexDigit (b % 16)])).flatten

/-- UTF-8 bytes of a string (`str.encode` with encoding `UTF-8`); this is
the byte content of `String.toUTF8`, kept as a list. -/
def strBytes (s : String) : List Nat :=
  (s.data.flatMap String.utf8EncodeChar).map (fun b => b.toNat)

/-- `create_uuid_from_string` (src/main.py line 68): MD5-hash the UTF-8
bytes of the input, take the lowercase hex digest, and format it as a
canonical UUID string (`str(uuid.UUID(hex=h))`), i.e. the 32 hex digits
with dashes after digits 8, 12, 16 and 20. -/
def create_uuid_from_string (val : String) : String :=
  let h := bytesToHex (md5 (strBytes val))
  String.mk (h.take 8 ++ '-' :: (h.drop 8).take 4 ++ '-' :: (h.drop 12).take 4 ++
    '-' :: (h.drop 16).take 4 ++ '-' :: h.drop 20)

/-! ### Configuration constants -/

/-- Fixed staff contact address (src/main.py line 14). -/
def ATTORNEY_EMAIL : String := "attorney@yourfirm.com"

/-- Process-wide shared admin secret (src/main.py line 15). -/
def INTERNAL_API_KEY : String := "SECRET_INTERNAL_KEY"

/-! ### Data model -/

/-- The `LeadState` enumeration (src/main.py lines 23-25). -/
inductive LeadState where
  | PENDING
  | REACHED_OUT
  deriving DecidableEq

/-- The `Lead` row (src/main.py lines 27-35); resume bytes are a byte
list. -/
structure Lead where
  id : String
  first_name : String
  last_name : String
  email : String
  resume_filename : String
  resume_data : List Nat
  state : LeadState
  deriving DecidableEq

/-- The `leads` table, as the list of its rows in insertion order. -/
abbrev Store := List Lead

/-- `db.query(Lead).filter(Lead.id == lead_id).first()`: the first row
with the given primary key, if any. -/
def findLead (db : Store) (lead_id : String) : Option Lead :=
  match db with
  | [] => none
  | l :: ls => if l.id = lead_id then some l else findLead ls lead_id

/-- Replace the row found by `findLead` with an updated row (the ORM
mutates the fetched row in place and commits). -/
def replaceFirst (db : Store) (lead_id : String) (l' : Lead) : Store :=
  match db with
  | [] => []
  | l :: ls => if l.id = lead_id then l' :: ls else l :: replaceFirst ls lead_id l'

/-- A notification handed to `send_email` (src/main.py line 79). -/
structure EmailMsg where
  to_addr : String
  subject : String
  body : String
  deriving DecidableEq

/-! ### Public endpoint: `create_lead` (src/main.py lines 87-129) -/

/-- What one call of `create_lead` produces: the response (a soft-error
message or the created lead), the table afterwards, and the e-mails
sent. -/
structure SubmitOutcome where
  result : Sum String Lead
  db : Store
  emails : List EmailMsg
  deriving DecidableEq

/-- `create_lead` (src/main.py lines 87-129): reject non-`.pdf` filenames
with a soft error; lowercase the email and derive the id from it; on a
duplicate id return a soft message and change nothing; otherwise insert
the new `PENDING` lead and send the two notifications. -/
def create_lead (first_name last_name email resume_filename : String)
    (resume_bytes : List Nat) (db : Store) : SubmitOutcome :=
  if ¬ pyEndswith (pyLower resume_filename) ".pdf" then
    { result := .inl "file error: only pdf file of resume is allowed.",
      db := db, emails := [] }
  else
    let email := pyLower email
    let lead_id := create_uuid_from_string email
    if (findLead db lead_id).isSome then
      { result := .inl "you have already applied. you can update your resume",
        db := db, emails := [] }
    else
      let lead : Lead :=
        { id := lead_id, first_name := first_name, last_name := last_name,
          email := pyLower email, resume_filename := resume_filename,
          resume_data := resume_bytes, state := .PENDING }
      { result := .inr lead,
        db := db ++ [lead],
        emails :=
          [{ to_addr := email, subject := "Thank you for your submission!",
             body := "Dear " ++ first_name ++
               ",\n\nThank you for submitting your lead. We will contact you soon.\n" },
           { to_addr := ATTORNEY_EMAIL, subject := "New Lead Submitted",
             body := "Lead from " ++ first_name ++ " " ++ last_name ++ " (" ++
               email ++ ") received." }] }

/-! ### Admin endpoints (src/main.py lines 132-179) -/

/-- Errors raised by the admin endpoints via `HTTPException`. -/
inductive ApiError where
  | Unauthorized
  | NotFound
  deriving DecidableEq

/-- Descending order on primary keys, as in
`db.query(Lead).order_by(Lead.id.desc())`. -/
def idDesc (a b : Lead) : Prop := b.id ≤ a.id

instance : DecidableRel idDesc := fun a b => inferInstanceAs (Decidable (b.id ≤ a.id))

instance : IsTotal Lead idDesc := ⟨fun a b => le_total b.id a.id⟩

instance : IsTrans Lead idDesc := ⟨fun _ _ _ h1 h2 => le_trans h2 h1⟩

/-- `get_leads` (src/main.py lines 132-134): all rows ordered by `id`
descending. -/
def get_leads (db : Store) : List Lead :=
  List.insertionSort idDesc db

/-- `get_lead` (src/main.py lines 137-142): fetch one row or 404. -/
def get_lead (db : Store) (lead_id : String) : Except ApiError Lead × Store :=
  match findLead db lead_id with
  | none => (.error .NotFound, db)
  | some l => (.ok l, db)

/-- `download_resume` (src/main.py lines 145-154): the stored bytes and
the stored filename (for the attachment header), or 404. -/
def download_resume (db : Store) (lead_id : String) :
    Except ApiError (List Nat × String) × Store :=
  match findLead db lead_id with
  | none => (.error .NotFound, db)
  | some l => (.ok (l.resume_data, l.resume_filename), db)

/-- `update_resume` (src/main.py lines 157-168): 404 if absent; otherwise
set `state` to `PENDING` and overwrite `resume_filename`.  Line 165 of the
source assigns the uploaded bytes to the attribute `resume_date`, which is
not a mapped column of `Lead`, so the stored `resume_data` is left
unchanged by the commit. -/
def update_resume (db : Store) (lead_id : String) (filename : String)
    (file_data : List Nat) : Except ApiError Lead × Store :=
  match findLead db lead_id with
  | none => (.error .NotFound, db)
  | some lead =>
    let _ := file_data
    let lead' : Lead := { lead with state := .PENDING, resume_filename := filename }
    (.ok lead', replaceFirst db lead_id lead')

/-- `update_lead_state` (src/main.py lines 171-179): 404 if absent;
otherwise set `state` unconditionally to the requested value. -/
def update_lead_state (db : Store) (lead_id : String) (new_state : LeadState) :
    Except ApiError Lead × Store :=
  match findLead db lead_id with
  | none => (.error .NotFound, db)
  | some lead =>
    let lead' : Lead := { lead with state := new_state }
    (.ok lead', replaceFirst db lead_id lead')

/-! ### Authentication gate and dispatch (src/main.py lines 73-76) -/

/-- `get_api_key` (src/main.py lines 73-76): the `X-API-Key` header value,
absent or present, must equal the shared secret or a 401 is raised. -/
def get_api_key (api_key : Option String) : Except ApiError Unit :=
  if api_key ≠ some INTERNAL_API_KEY then .error .Unauthorized else .ok ()

/-- One request to any of the five authenticated admin endpoints. -/
inductive AdminRequest where
  | listLeads
  | getLead (lead_id : String)
  | downloadResume (lead_id : String)
  | updateResume (lead_id : String) (filename : String) (file_data : List Nat)
  | updateState (lead_id : String) (new_state : LeadState)

/-- Successful payload of an admin endpoint. -/
inductive AdminResponse where
  | leads (ls : List Lead)
  | lead (l : Lead)
  | file (data : List Nat) (filename : String)
  deriving DecidableEq

/-- Dispatch of an admin request: the `Depends(get_api_key)` dependency
runs first and aborts with 401 before the handler body touches the
store. -/
def handle_admin (api_key : Option String) (db : Store) (req : AdminRequest) :
    Except ApiError AdminResponse × Store :=
  match get_api_key api_key with
  | .error e => (.error e, db)
  | .ok _ =>
    match req with
    | .listLeads => (.ok (.leads (get_leads db)), db)
    | .getLead i =>
      match get_lead db i with
      | (.error e, db') => (.error e, db')
      | (.ok l, db') => (.ok (.lead l), db')
    | .downloadResume i =>
      match download_resume db i with
      | (.error e, db') => (.error e, db')
      | (.ok (d, f), db') => (.ok (.file d f), db')
    | .updateResume i fn bytes =>
      match update_resume db i fn bytes with
      | (.error e, db') => (.error e, db')
      | (.ok l, db') => (.ok (.lead l), db')
    | .updateState i s =>
      match update_lead_state db i s with
      | (.error e, db') => (.error e, db')
      | (.ok l, db') => (.ok (.lead l), db')

/-! ### Helper lemmas -/

theorem toLEBytes_length (k n : Nat) : (toLEBytes k n).length = k := by
  induction k generalizing n with
  | zero => rfl
  | succ k ih => simp [toLEBytes, ih]

theorem md5_length (msg : List Nat) : (md5 msg).length = 16 := by
  simp [md5, toLEBytes_length]

theorem bytesToHex_length (l : List Nat) : (bytesToHex l).length = 2 * l.length := by
  induction l with
  | nil => rfl
  | cons b bs ih => simp [bytesToHex] at ih ⊢; omega

theorem create_uuid_length (val : String) : (create_uuid_from_string val).length = 36 := by
  have h32 : (bytesToHex (md5 (strBytes val))).length = 32 := by
    rw [bytesToHex_length, md5_length]
  show (String.mk _).length = 36
  simp [String.length, h32]

theorem toNat_ofNat_valid {m : Nat} (h : m < 55296) : (Char.ofNat m).toNat = m := by
  have hv : m.isValidChar := Or.inl h
  simp [Char.ofNat, hv, Char.ofNatAux, Char.toNat]
  rfl

theorem char_toLower_idem (c : Char) : c.toLower.toLower = c.toLower := by
  unfold Char.toLower
  by_cases h : c.toNat ≥ 65 ∧ c.toNat ≤ 90
  · rw [if_pos h, if_neg ?_]
    intro hc
    rw [toNat_ofNat_valid (by omega)] at hc
    omega
  · rw [if_neg h, if_neg h]

theorem pyLower_idem (s : String) : pyLower (pyLower s) = pyLower s := by
  show String.mk ((s.data.map Char.toLower).map Char.toLower) = String.mk (s.data.map Char.toLower)
  congr 1
  induction s.data with
  | nil => rfl
  | cons c cs ih => simp [char_toLower_idem, ih]

theorem findLead_id {db : Store} {i : String} {l : Lead}
    (h : findLead db i = some l) : l.id = i := by
  induction db with
  | nil => simp [findLead] at h
  | cons a as ih =>
    by_cases ha : a.id = i
    · rw [findLead, if_pos ha] at h
      cases h
      exact ha
    · rw [findLead, if_neg ha] at h
      exact ih h

theorem findLead_replaceFirst {db : Store} {i : String} {l' : Lead}
    (h : (findLead db i).isSome = true) (hl' : l'.id = i) :
    findLead (replaceFirst db i l') i = some l' := by
  induction db with
  | nil => simp [findLead] at h
  | cons a as ih =>
    by_cases ha : a.id = i
    · rw [replaceFirst, if_pos ha, findLead, if_pos hl']
    · rw [replaceFirst, if_neg ha, findLead, if_neg ha]
      rw [findLead, if_neg ha] at h
      exact ih h

theorem replaceFirst_replaceFirst {db : Store} {i : String} {l' l'' : Lead}
    (hl' : l'.id = i) :
    replaceFirst (replaceFirst db i l') i l'' = replaceFirst db i l'' := by
  induction db with
  | nil => rfl
  | cons a as ih =>
    by_cases ha : a.id = i
    · rw [replaceFirst, if_pos ha, replaceFirst, if_pos hl', replaceFirst, if_pos ha]
    · rw [replaceFirst, if_neg ha, replaceFirst, if_neg ha, replaceFirst, if_neg ha, ih]

/-! ### Claims -/

/-- C1: the spec says `replaceResume` overwrites both the stored filename and
the stored bytes.  Evaluating `update_resume` on a store holding a lead with
resume bytes `[1]` and uploading new bytes `[2]` shows that the returned (and
stored) lead still carries the old bytes `[1]`: line 165 of the source assigns
the uploaded bytes to the unmapped attribute `resume_date`, so only the
filename and the state change. -/
theorem update_resume_keeps_old_bytes :
    (update_resume
        [{ id := "L1", first_name := "A", last_name := "B", email := "a@b.com",
           resume_filename := "resume.pdf", resume_data := [1], state := .REACHED_OUT }]
        "L1" "resume2.pdf" [2]) =
      (.ok { id := "L1", first_name := "A", last_name := "B", email := "a@b.com",
             resume_filename := "resume2.pdf", resume_data := [1], state := .PENDING },
       [{ id := "L1", first_name := "A", last_name := "B", email := "a@b.com",
          resume_filename := "resume2.pdf", resume_data := [1], state := .PENDING }]) ∧
    ([1] : List Nat) ≠ [2] := by
  constructor
  · rfl
  · decide

set_option maxRecDepth 1000000 in
/-- C2 counterexample: the id derivation applied to submitted emails (lowercase
the email, then `create_uuid_from_string`) is not invariant under trimming:
`" a@b.com"` and `"a@b.com"` are equal after lowercasing and trimming, yet
their derived ids differ, because the code never strips whitespace before
hashing. -/
theorem derive_id_not_trim_invariant :
    pyStrip (pyLower " a@b.com") = pyStrip (pyLower "a@b.com") ∧
    create_uuid_from_string (pyLower " a@b.com") ≠
      create_uuid_from_string (pyLower "a@b.com") := by
  constructor
  · decide
  · decide

/-- C2 (amended): the derived lead id is a pure, deterministic function of the
lowercased email — any two submitted emails equal after lowercasing yield the
same identifier — and that identifier is a fixed-length (36-character)
UUID-format string.  (No trimming is performed by the code.) -/
theorem derive_id_deterministic_uuid (e1 e2 : String) (h : pyLower e1 = pyLower e2) :
    create_uuid_from_string (pyLower e1) = create_uuid_from_string (pyLower e2) ∧
    (create_uuid_from_string (pyLower e1)).length = 36 := by
  exact ⟨by rw [h], create_uuid_length _⟩

/-- Witness for C2 (amended) at the concrete pair `"A@B.com"` / `"a@b.com"`. -/
theorem derive_id_deterministic_uuid_witness :
    pyLower "A@B.com" = pyLower "a@b.com" ∧
    (create_uuid_from_string (pyLower "A@B.com") =
        create_uuid_from_string (pyLower "a@b.com") ∧
      (create_uuid_from_string (pyLower "A@B.com")).length = 36) :=
  ⟨by decide, derive_id_deterministic_uuid "A@B.com" "a@b.com" (by decide)⟩

/-- A store row whose id is the one derived from `"a@b.com"`, used to
exercise the duplicate-submission branch. -/
def dupLead : Lead :=
  { id := create_uuid_from_string (pyLower "a@b.com"), first_name := "Jane",
    last_name := "Doe", email := "a@b.com", resume_filename := "resume.pdf",
    resume_data := [1], state := .PENDING }

/-- C3 counterexample: a submission whose derived id already has a lead in the
store but whose filename is not `.pdf` returns the file-type soft error, not
the "already applied" result — the duplicate check runs only after the file
check. -/
theorem duplicate_non_pdf_gets_file_error :
    (findLead [dupLead] (create_uuid_from_string (pyLower "a@b.com"))).isSome = true ∧
    (create_lead "Ann" "Lee" "a@b.com" "resume.txt" [2] [dupLead]).result =
      .inl "file error: only pdf file of resume is allowed." ∧
    (create_lead "Ann" "Lee" "a@b.com" "resume.txt" [2] [dupLead]).result ≠
      .inl "you have already applied. you can update your resume" := by
  refine ⟨by simp [findLead, dupLead], by decide, by decide⟩

/-- C3 (amended): for every submission with a `.pdf` filename (case-insensitive)
whose derived id already has a lead in the store, `create_lead` returns the soft
"already applied" message, leaves the store completely unchanged (so the
existing lead is untouched and nothing is inserted), and sends no
notification. -/
theorem create_lead_duplicate_soft (fn ln email rfn : String) (bytes : List Nat)
    (db : Store)
    (hpdf : pyEndswith (pyLower rfn) ".pdf" = true)
    (hdup : (findLead db (create_uuid_from_string (pyLower email))).isSome = true) :
    create_lead fn ln email rfn bytes db =
      { result := .inl "you have already applied. you can update your resume",
        db := db, emails := [] } := by
  simp [create_lead, hpdf, hdup]

/-- Witness for C3 (amended): a `.pdf` resubmission for `"a@b.com"` against a
store already holding the lead derived from that email. -/
theorem create_lead_duplicate_soft_witness :
    pyEndswith (pyLower "resume.pdf") ".pdf" = true ∧
    (findLead [dupLead] (create_uuid_from_string (pyLower "a@b.com"))).isSome = true ∧
    create_lead "Ann" "Lee" "a@b.com" "resume.pdf" [2] [dupLead] =
      { result := .inl "you have already applied. you can update your resume",
        db := [dupLead], emails := [] } :=
  ⟨by decide, by simp [findLead, dupLead],
    create_lead_duplicate_soft "Ann" "Lee" "a@b.com" "resume.pdf" [2] [dupLead]
      (by decide) (by simp [findLead, dupLead])⟩

/-- C4: every submission whose filename does not end in `.pdf` after
lowercasing gets the soft file-type error and nothing else happens: the store
is returned unchanged and no notification is sent. -/
theorem create_lead_rejects_non_pdf (fn ln email rfn : String) (bytes : List Nat)
    (db : Store) (h : pyEndswith (pyLower rfn) ".pdf" = false) :
    create_lead fn ln email rfn bytes db =
      { result := .inl "file error: only pdf file of resume is allowed.",
        db := db, emails := [] } := by
  simp [create_lead, h]

/-- Witness for C4 at the filename `"resume.txt"` (and it also shows `.PDF`
passes the case-insensitive check, so the rejection is genuinely about the
lowercased suffix). -/
theorem create_lead_rejects_non_pdf_witness :
    pyEndswith (pyLower "resume.txt") ".pdf" = false ∧
    pyEndswith (pyLower "resume.PDF") ".pdf" = true ∧
    create_lead "Ann" "Lee" "a@b.com" "resume.txt" [2] [] =
      { result := .inl "file error: only pdf file of resume is allowed.",
        db := [], emails := [] } :=
  ⟨by decide, by decide,
    create_lead_rejects_non_pdf "Ann" "Lee" "a@b.com" "resume.txt" [2] [] (by decide)⟩

/-- C5: every valid, non-duplicate submission with a (case-insensitively)
`.pdf` filename appends exactly one new lead whose id is derived from the
lowercased email, whose `email` is the lowercased submitted email and whose
state is `PENDING`; it returns that lead and sends exactly two notifications —
the thank-you to the submitting (lowercased) email and the new-lead alert to
the fixed staff contact. -/
theorem create_lead_success (fn ln email rfn : String) (bytes : List Nat)
    (db : Store)
    (hpdf : pyEndswith (pyLower rfn) ".pdf" = true)
    (hnew : findLead db (create_uuid_from_string (pyLower email)) = none) :
    create_lead fn ln email rfn bytes db =
      { result := .inr
          { id := create_uuid_from_string (pyLower email), first_name := fn,
            last_name := ln, email := pyLower email, resume_filename := rfn,
            resume_data := bytes, state := .PENDING },
        db := db ++
          [{ id := create_uuid_from_string (pyLower email), first_name := fn,
             last_name := ln, email := pyLower email, resume_filename := rfn,
             resume_data := bytes, state := .PENDING }],
        emails :=
          [{ to_addr := pyLower email, subject := "Thank you for your submission!",
             body := "Dear " ++ fn ++
               ",\n\nThank you for submitting your lead. We will contact you soon.\n" },
           { to_addr := ATTORNEY_EMAIL, subject := "New Lead Submitted",
             body := "Lead from " ++ fn ++ " " ++ ln ++ " (" ++ pyLower email ++
               ") received." }] } := by
  simp [create_lead, hpdf, hnew, pyLower_idem]

/-- Witness for C5: the spec's scenario, submitting `Jane Doe` with
`Jane.Doe@Example.com` and `resume.pdf` into an empty store. -/
theorem create_lead_success_witness :
    pyEndswith (pyLower "resume.pdf") ".pdf" = true ∧
    findLead [] (create_uuid_from_string (pyLower "Jane.Doe@Example.com")) = none ∧
    create_lead "Jane" "Doe" "Jane.Doe@Example.com" "resume.pdf" [1, 2] [] =
      { result := .inr
          { id := create_uuid_from_string (pyLower "Jane.Doe@Example.com"),
            first_name := "Jane", last_name := "Doe",
            email := pyLower "Jane.Doe@Example.com", resume_filename := "resume.pdf",
            resume_data := [1, 2], state := .PENDING },
        db :=
          [{ id := create_uuid_from_string (pyLower "Jane.Doe@Example.com"),
             first_name := "Jane", last_name := "Doe",
             email := pyLower "Jane.Doe@Example.com", resume_filename := "resume.pdf",
             resume_data := [1, 2], state := .PENDING }],
        emails :=
          [{ to_addr := pyLower "Jane.Doe@Example.com",
             subject := "Thank you for your submission!",
             body := "Dear " ++ "Jane" ++
               ",\n\nThank you for submitting your lead. We will contact you soon.\n" },
           { to_addr := ATTORNEY_EMAIL, subject := "New Lead Submitted",
             body := "Lead from " ++ "Jane" ++ " " ++ "Doe" ++ " (" ++
               pyLower "Jane.Doe@Example.com" ++ ") received." }] } :=
  ⟨by decide, rfl,
    create_lead_success "Jane" "Doe" "Jane.Doe@Example.com" "resume.pdf" [1, 2] []
      (by decide) rfl⟩

/-- C6: for every lead present in the store and either enumeration value,
`update_lead_state` succeeds, sets the state unconditionally to the requested
value (no transition-legality checking, including `REACHED_OUT` back to
`PENDING`), returns exactly the stored updated lead, and is idempotent:
running it again with the same state changes nothing. -/
theorem update_lead_state_unconditional_idempotent (db : Store) (i : String)
    (s : LeadState) (h : (findLead db i).isSome = true) :
    ∃ l', (update_lead_state db i s).1 = .ok l' ∧ l'.state = s ∧
      findLead (update_lead_state db i s).2 i = some l' ∧
      update_lead_state (update_lead_state db i s).2 i s =
        ((update_lead_state db i s).1, (update_lead_state db i s).2) := by
  obtain ⟨l, hl⟩ := Option.isSome_iff_exists.mp h
  have hid : l.id = i := findLead_id hl
  have hid' : (({ l with state := s } : Lead)).id = i := hid
  refine ⟨{ l with state := s }, ?_, rfl, ?_, ?_⟩
  · simp [update_lead_state, hl]
  · simp only [update_lead_state, hl]
    exact findLead_replaceFirst h hid'
  · simp only [update_lead_state, hl]
    rw [findLead_replaceFirst h hid']
    simp [replaceFirst_replaceFirst hid']

/-- Witness for C6: flipping the single stored `REACHED_OUT` lead back to
`PENDING` succeeds (obtained by applying the theorem at that store). -/
theorem update_lead_state_unconditional_idempotent_witness :
    ∃ l', (update_lead_state
        [{ id := "L1", first_name := "A", last_name := "B", email := "a@b.com",
           resume_filename := "r.pdf", resume_data := [1], state := .REACHED_OUT }]
        "L1" .PENDING).1 = .ok l' ∧ l'.state = .PENDING ∧
      findLead (update_lead_state
        [{ id := "L1", first_name := "A", last_name := "B", email := "a@b.com",
           resume_filename := "r.pdf", resume_data := [1], state := .REACHED_OUT }]
        "L1" .PENDING).2 "L1" = some l' ∧
      update_lead_state (update_lead_state
          [{ id := "L1", first_name := "A", last_name := "B", email := "a@b.com",
             resume_filename := "r.pdf", resume_data := [1], state := .REACHED_OUT }]
          "L1" .PENDING).2 "L1" .PENDING =
        ((update_lead_state
            [{ id := "L1", first_name := "A", last_name := "B", email := "a@b.com",
               resume_filename := "r.pdf", resume_data := [1], state := .REACHED_OUT }]
            "L1" .PENDING).1,
         (update_lead_state
            [{ id := "L1", first_name := "A", last_name := "B", email := "a@b.com",
               resume_filename := "r.pdf", resume_data := [1], state := .REACHED_OUT }]
            "L1" .PENDING).2) :=
  update_lead_state_unconditional_idempotent
    [{ id := "L1", first_name := "A", last_name := "B", email := "a@b.com",
       resume_filename := "r.pdf", resume_data := [1], state := .REACHED_OUT }]
    "L1" .PENDING (by decide)

/-- C7: each of `get_lead`, `download_resume`, `update_resume` and
`update_lead_state` fails with `NotFound` exactly when no lead with the given
id is in the store, and in that failure case the store is left unchanged. -/
theorem admin_ops_notfound_iff (db : Store) (i fn : String) (bytes : List Nat)
    (s : LeadState) :
    ((get_lead db i).1 = .error .NotFound ↔ findLead db i = none) ∧
    ((download_resume db i).1 = .error .NotFound ↔ findLead db i = none) ∧
    ((update_resume db i fn bytes).1 = .error .NotFound ↔ findLead db i = none) ∧
    ((update_lead_state db i s).1 = .error .NotFound ↔ findLead db i = none) ∧
    (findLead db i = none →
      (get_lead db i).2 = db ∧ (download_resume db i).2 = db ∧
      (update_resume db i fn bytes).2 = db ∧ (update_lead_state db i s).2 = db) := by
  cases hf : findLead db i <;>
    simp [get_lead, download_resume, update_resume, update_lead_state, hf]

/-- Witness for C7 on the empty store, where every lookup is absent. -/
theorem admin_ops_notfound_iff_witness :
    (get_lead [] "x").1 = .error .NotFound ∧ (update_lead_state [] "x" .PENDING).2 = [] :=
  ⟨(admin_ops_notfound_iff [] "x" "f" [] .PENDING).1.mpr rfl,
    ((admin_ops_notfound_iff [] "x" "f" [] .PENDING).2.2.2.2 rfl).2.2.2⟩

/-- C8: every admin request, with any credential different from the shared
secret (including an absent one), fails with `Unauthorized` and returns the
store untouched — and since this holds for every store with the same output,
the rejected request neither mutates nor reads the store. -/
theorem admin_requires_exact_key (api_key : Option String) (db : Store)
    (req : AdminRequest) (h : api_key ≠ some INTERNAL_API_KEY) :
    handle_admin api_key db req = (.error .Unauthorized, db) := by
  simp [handle_admin, get_api_key, h]

/-- Witness for C8: a wrong key and a missing key are both rejected on a
concrete store. -/
theorem admin_requires_exact_key_witness :
    handle_admin (some "WRONG_KEY") [dupLead] .listLeads =
      (.error .Unauthorized, [dupLead]) ∧
    handle_admin none [dupLead] (.updateState "L1" .PENDING) =
      (.error .Unauthorized, [dupLead]) :=
  ⟨admin_requires_exact_key (some "WRONG_KEY") [dupLead] .listLeads (by decide),
    admin_requires_exact_key none [dupLead] (.updateState "L1" .PENDING) (by decide)⟩

/-- C9: `get_leads` returns exactly the stored leads — a permutation of the
table, so none missing and none extra — ordered by `id` descending. -/
theorem get_leads_perm_sorted (db : Store) :
    (get_leads db).Perm db ∧ List.Sorted idDesc (get_leads db) :=
  ⟨List.perm_insertionSort idDesc db, List.sorted_insertionSort idDesc db⟩

/-- C10: the update operations only touch their designated fields: for a
stored lead, `update_resume` returns it with only `state` and
`resume_filename` changed (so `id`, `first_name`, `last_name` and `email` are
untouched), and `update_lead_state` returns it with only `state` changed. -/
theorem update_ops_frame (db : Store) (i fn : String) (bytes : List Nat)
    (s : LeadState) (l : Lead) (h : findLead db i = some l) :
    (update_resume db i fn bytes).1 =
      .ok { l with state := .PENDING, resume_filename := fn } ∧
    (update_lead_state db i s).1 = .ok { l with state := s } := by
  simp [update_resume, update_lead_state, h]

/-- Witness for C10 on a concrete one-row store. -/
theorem update_ops_frame_witness :
    findLead
        [{ id := "L1", first_name := "A", last_name := "B", email := "a@b.com",
           resume_filename := "r.pdf", resume_data := [1], state := .REACHED_OUT }]
        "L1" =
      some { id := "L1", first_name := "A", last_name := "B", email := "a@b.com",
             resume_filename := "r.pdf", resume_data := [1], state := .REACHED_OUT } ∧
    ((update_resume
        [{ id := "L1", first_name := "A", last_name := "B", email := "a@b.com",
           resume_filename := "r.pdf", resume_data := [1], state := .REACHED_OUT }]
        "L1" "r2.pdf" [9]).1 =
      .ok { id := "L1", first_name := "A", last_name := "B", email := "a@b.com",
            resume_filename := "r2.pdf", resume_data := [1], state := .PENDING } ∧
     (update_lead_state
        [{ id := "L1", first_name := "A", last_name := "B", email := "a@b.com",
           resume_filename := "r.pdf", resume_data := [1], state := .REACHED_OUT }]
        "L1" .PENDING).1 =
      .ok { id := "L1", first_name := "A", last_name := "B", email := "a@b.com",
            resume_filename := "r.pdf", resume_data := [1], state := .PENDING }) :=
  ⟨by decide,
    update_ops_frame
      [{ id := "L1", first_name := "A", last_name := "B", email := "a@b.com",
         resume_filename := "r.pdf", resume_data := [1], state := .REACHED_OUT }]
      "L1" "r2.pdf" [9] .PENDING
      { id := "L1", first_name := "A", last_name := "B", email := "a@b.com",
        resume_filename := "r.pdf", resume_data := [1], state := .REACHED_OUT }
      (by decide)⟩

end CandidateProcess
